import Mathlib

/-!
Verification development for the creator-vault batch pipeline
(src/reels.py, src/script_reels.py, src/reels_analyzer.py,
src/script_analyzer.py).

Text lines are modelled as `List Char`; Python strings map to char lists,
Python `None` to `Option.none`.  Every definition below is a direct shallow
embedding of the function named in its doc comment.
-/

namespace CreatorVault

/-- Python `str.strip()`: drop whitespace from both ends of a char list. -/
def pyStrip (l : List Char) : List Char :=
  ((l.dropWhile Char.isWhitespace).reverse.dropWhile Char.isWhitespace).reverse

/-- Python `str.lower()` on a char list. -/
def lowerList (l : List Char) : List Char :=
  l.map Char.toLower

/-- Helper for substring containment: does `hay` start with `needle`? -/
def leadMatches : List Char → List Char → Bool
  | [], _ => true
  | _ :: _, [] => false
  | a :: as, b :: bs => (a == b) && leadMatches as bs

/-- Python `needle in hay` on strings: substring containment. -/
def containsSub (needle : List Char) : List Char → Bool
  | [] => needle.isEmpty
  | c :: rest => leadMatches needle (c :: rest) || containsSub needle rest

/-- Python `s.split(sep)` for a one-character separator: always returns at
least one (possibly empty) piece, and keeps empty pieces. -/
def splitOnChar (sep : Char) : List Char → List (List Char)
  | [] => [[]]
  | c :: rest =>
    match splitOnChar sep rest with
    | [] => [[c]]
    | h :: t => if c = sep then [] :: h :: t else (c :: h) :: t

/-- Python `",".join(parts)` on char lists. -/
def joinComma : List (List Char) → List Char
  | [] => []
  | [f] => f
  | f :: fs => f ++ ',' :: joinComma fs

/-- Python `s.startswith('"')`. -/
def startsWithQuote : List Char → Bool
  | [] => false
  | c :: _ => c == '"'

/-- Python `s.endswith('"')`. -/
def endsWithQuote (l : List Char) : Bool :=
  match l.getLast? with
  | some c => c == '"'
  | none => false

/-- Python `s[1:]` applied when the string starts with a quote
(`if s.startswith('"'): s = s[1:]`). -/
def dropLeadQuote (l : List Char) : List Char :=
  if startsWithQuote l then l.tail else l

/-- Python `if s.endswith('"'): s = s[:-1]`. -/
def dropTrailQuote (l : List Char) : List Char :=
  if endsWithQuote l then l.dropLast else l

/-- Python `s.isdigit()` restricted to ASCII digits: non-empty and all
digits. -/
def isDigits (l : List Char) : Bool :=
  !l.isEmpty && l.all Char.isDigit

/-- Python `int(s)` on a digit string. -/
def digitsToNat (l : List Char) : Nat :=
  l.foldl (fun a c => 10 * a + (c.toNat - 48)) 0

/-- The quote "normalization" of src/reels.py line 118 and
src/script_reels.py line 187.  Although the adjacent comment announces
smart-quote folding, both `replace` calls there have the plain straight
quote (byte 0x22) as source and target — `replace('"', '"')` twice —
so the step replaces the straight quote with itself and is the
identity on the text; curly quotes reach the tokenizer unchanged, as
ordinary characters. -/
def normalizeQuotes (l : List Char) : List Char :=
  (l.map (fun c => if c = '"' then '"' else c)).map
    (fun c => if c = '"' then '"' else c)

/-- The character scan of `fix_csv_line` (src/reels.py lines 179–202) and
`fix_script_csv_line` (src/script_reels.py lines 191–214): walk the line,
tracking the `in_quotes` flag; two consecutive quotes are passed through
as the literal two-character sequence and the flag is left unchanged; a
single quote toggles the flag; a comma outside quotes closes the current
field.  At the end the pending field is appended only when non-empty
(Python `if current_part:`). -/
def scanLoop : List Char → Bool → List Char → List (List Char) → List (List Char)
  | [], _, cur, parts => if cur.isEmpty then parts else parts ++ [cur]
  | c :: rest, inQ, cur, parts =>
    if c = '"' then
      match rest with
      | q :: rest2 =>
        if q = '"' then scanLoop rest2 inQ (cur ++ ['"', '"']) parts
        else scanLoop (q :: rest2) (!inQ) (cur ++ ['"']) parts
      | [] => scanLoop [] (!inQ) (cur ++ ['"']) parts
    else if c = ',' ∧ inQ = false then
      scanLoop rest inQ [] (parts ++ [cur])
    else
      scanLoop rest inQ (cur ++ [c]) parts

/-- First phase of `fix_csv_line`: tokenize the raw line. -/
def tokenizeRaw (line : List Char) : List (List Char) :=
  scanLoop line false [] []

mutual

/-- Repair pass of `fix_csv_line` (src/reels.py lines 205–226) and
`fix_script_csv_line` (src/script_reels.py lines 216–237): walk the parts;
a stripped part that starts with a quote but does not end with one is
re-joined (comma re-inserted) with following raw parts up to and including
the first whose stripped form ends with a quote; other parts are kept
stripped. -/
def mergeParts : List (List Char) → List (List Char)
  | [] => []
  | p :: rest =>
    let sp := pyStrip p
    if startsWithQuote sp && !endsWithQuote sp then
      mergeAux sp rest
    else
      sp :: mergeParts rest

/-- Inner `while j < len(parts)` loop of the repair pass: keep absorbing
raw parts into the combined field until one strip-ends with a quote. -/
def mergeAux (acc : List Char) : List (List Char) → List (List Char)
  | [] => [acc]
  | q :: rest =>
    let acc2 := acc ++ ',' :: q
    if endsWithQuote (pyStrip q) then acc2 :: mergeParts rest
    else mergeAux acc2 rest

end

/-- Shared body of `fix_csv_line` (arity 9, src/reels.py lines 177–228)
and `fix_script_csv_line` (arity 13, src/script_reels.py lines 189–239):
the two Python functions are textually identical except for the expected
field count `n`.  Tokenize; if the count is not `n`, run the repair pass;
return the parts only when exactly `n` result. -/
def fixLineN (n : Nat) (line : List Char) : Option (List (List Char)) :=
  let parts := tokenizeRaw line
  if parts.length = n then some parts
  else
    let fixed := mergeParts parts
    if fixed.length = n then some fixed else none

/-- Embedding of `fix_csv_line` from src/reels.py. -/
def fix_csv_line (line : List Char) : Option (List (List Char)) :=
  fixLineN 9 line

/-- Embedding of `fix_script_csv_line` from src/script_reels.py. -/
def fix_script_csv_line (line : List Char) : Option (List (List Char)) :=
  fixLineN 13 line

example : fix_csv_line "a,b,c,d,e,f,g,h,i".toList =
    some ["a".toList, "b".toList, "c".toList, "d".toList, "e".toList,
          "f".toList, "g".toList, "h".toList, "i".toList] := by decide

example : fix_csv_line "a,b,c,d,e,f,g,h,".toList = none := by decide

example : tokenizeRaw "a,\"x,y\",b".toList =
    ["a".toList, "\"x,y\"".toList, "b".toList] := by decide

/-- Python `",".join(parts[a:b]).strip()` as used by the fallback parser. -/
def sliceJoinStrip (parts : List (List Char)) (a b : Nat) : List Char :=
  pyStrip (joinComma ((parts.drop a).take (b - a)))

/-- Rating test of `extract_fields_pattern_matching` (src/reels.py line
136): `part.strip().isdigit() and 1 <= int(part.strip()) <= 5`. -/
def isRating15 (s : List Char) : Bool :=
  isDigits s && decide (1 ≤ digitsToNat s) && decide (digitsToNat s ≤ 5)

/-- The `for i, part in enumerate(parts[4:], 4)` search for the rating
anchor (src/reels.py lines 134–138): first index `≥ k` whose stripped
part is a digit string in 1..5. -/
def findRatingIdx (k : Nat) : List (List Char) → Option Nat
  | [] => none
  | p :: rest =>
    if isRating15 (pyStrip p) then some k else findRatingIdx (k + 1) rest

/-- The `for i in range(rating_idx, len(parts))` search for the purpose
anchor (src/reels.py lines 153–156): first index `≥ k` whose lowered raw
part contains the quoted word `"purpose"` or `"serves"`. -/
def findAnchorIdx (k : Nat) : List (List Char) → Option Nat
  | [] => none
  | p :: rest =>
    if containsSub "\"purpose\"".toList (lowerList p) ||
        containsSub "\"serves\"".toList (lowerList p) then some k
    else findAnchorIdx (k + 1) rest

/-- Embedding of `extract_fields_pattern_matching` (src/reels.py lines
120–175), the fallback parser: naive comma split; fail below 4 parts;
locate the rating anchor (digit 1..5) at index ≥ 4, failing if absent;
then rebuild 9 fields: the first 4 parts stripped, the joined span
`parts[4:rating_idx]` with one layer of quotes conditionally removed, the
joined span `parts[4:desc_start]`, the span `parts[desc_start:rating_idx]`,
the rating part, and the joined tail with quotes conditionally removed. -/
def extract_fields_pattern_matching (line : List Char) : Option (List (List Char)) :=
  let parts := splitOnChar ',' line
  if parts.length < 4 then none
  else
    match findRatingIdx 4 (parts.drop 4) with
    | none => none
    | some r =>
      let lead := (parts.take 4).map pyStrip
      let spoken := dropTrailQuote (dropLeadQuote (sliceJoinStrip parts 4 r))
      let descStart := (findAnchorIdx r (parts.drop r)).getD r
      let vdesc := sliceJoinStrip parts 4 descStart
      let purpose := sliceJoinStrip parts descStart r
      let rating := pyStrip (parts.getD r [])
      let just := dropTrailQuote (dropLeadQuote
        (sliceJoinStrip parts (r + 1) parts.length))
      let fields := lead ++ [spoken, vdesc, purpose, rating, just]
      if fields.length = 9 then some fields else none

/-- Record shape of src/reels_analyzer.py lines 6–18 (`@dataclass
VisualSegmentAnalysis`); the dataclass performs no validation, so every
field is stored as the text it was given (the code passes
`str(fields[0])` and `str(fields[7])`, identities on strings). -/
structure VisualSegmentAnalysis where
  video_filename : List Char
  segment_id : List Char
  start_time : List Char
  end_time : List Char
  shot_type : List Char
  spoken_text : List Char
  visual_description : List Char
  inferred_purpose : List Char
  effectiveness_rating : List Char
  effectiveness_justification : List Char
deriving DecidableEq

/-- Record shape of src/script_analyzer.py lines 5–20 (`@dataclass
ScriptAnalysis`). -/
structure ScriptAnalysis where
  video_filename : List Char
  overall_message : List Char
  script_purpose : List Char
  tonality : List Char
  emotional_arc : List Char
  hook_effectiveness : List Char
  narrative_flow : List Char
  transition_quality : List Char
  call_to_action : List Char
  recurring_patterns : List Char
  line_by_line_analysis : List Char
  effectiveness_score : List Char
  improvement_suggestions : List Char
deriving DecidableEq

/-- Construction of `VisualSegmentAnalysis` from a 9-field list
(src/reels.py lines 250–261): fields are stored verbatim, with the
filename added explicitly; no stripping, unescaping or numeric check. -/
def mkVSA (filename : List Char) (fields : List (List Char)) : VisualSegmentAnalysis :=
  { video_filename := filename
    segment_id := fields.getD 0 []
    start_time := fields.getD 1 []
    end_time := fields.getD 2 []
    shot_type := fields.getD 3 []
    spoken_text := fields.getD 4 []
    visual_description := fields.getD 5 []
    inferred_purpose := fields.getD 6 []
    effectiveness_rating := fields.getD 7 []
    effectiveness_justification := fields.getD 8 [] }

/-- Construction of `ScriptAnalysis` from a 13-field list
(src/script_reels.py lines 254–268): fields stored verbatim. -/
def mkSA (fields : List (List Char)) : ScriptAnalysis :=
  { video_filename := fields.getD 0 []
    overall_message := fields.getD 1 []
    script_purpose := fields.getD 2 []
    tonality := fields.getD 3 []
    emotional_arc := fields.getD 4 []
    hook_effectiveness := fields.getD 5 []
    narrative_flow := fields.getD 6 []
    transition_quality := fields.getD 7 []
    call_to_action := fields.getD 8 []
    recurring_patterns := fields.getD 9 []
    line_by_line_analysis := fields.getD 10 []
    effectiveness_score := fields.getD 11 []
    improvement_suggestions := fields.getD 12 [] }

/-- Header-row test of src/reels.py line 235: the lowered line contains
`segment_id` or `video_segment_id` as a substring. -/
def isReelsHeader (line : List Char) : Bool :=
  containsSub "segment_id".toList (lowerList line) ||
    containsSub "video_segment_id".toList (lowerList line)

/-- Header-row test of src/script_reels.py line 246: the lowered line
contains `video_filename` or `overall_message` as a substring. -/
def isScriptHeader (line : List Char) : Bool :=
  containsSub "video_filename".toList (lowerList line) ||
    containsSub "overall_message".toList (lowerList line)

/-- One iteration of the per-line loop of `analyze_video` (src/reels.py
lines 231–273) over the state `(results, parse_error)`: skip blank lines
and header-looking lines; otherwise try `fix_csv_line`, then the
pattern-matching fallback; with 9 fields, build the record (which cannot
fail) and append it; otherwise set the parse-error flag. -/
def lineStep (filename : List Char) (st : List VisualSegmentAnalysis × Bool)
    (line : List Char) : List VisualSegmentAnalysis × Bool :=
  if (pyStrip line).isEmpty then st
  else if isReelsHeader line then st
  else
    let fields :=
      match fix_csv_line line with
      | some f => some f
      | none => extract_fields_pattern_matching line
    match fields with
    | some f =>
      if f.length = 9 then (st.1 ++ [mkVSA filename f], st.2)
      else (st.1, true)
    | none => (st.1, true)

/-- One iteration of the per-line loop of `analyze_script`
(src/script_reels.py lines 242–291): same shape, without a fallback
parser and with arity 13. -/
def scriptLineStep (st : List ScriptAnalysis × Bool)
    (line : List Char) : List ScriptAnalysis × Bool :=
  if (pyStrip line).isEmpty then st
  else if isScriptHeader line then st
  else
    match fix_script_csv_line line with
    | some f =>
      if f.length = 13 then (st.1 ++ [mkSA f], st.2)
      else (st.1, true)
    | none => (st.1, true)

/-- The text-to-records phase of `analyze_video` (src/reels.py lines
117–273): normalize curly quotes, strip the whole text, split on newlines
and fold the per-line step starting from no results and no error. -/
def parseAnalysisText (filename text : List Char) :
    List VisualSegmentAnalysis × Bool :=
  (splitOnChar '\n' (pyStrip (normalizeQuotes text))).foldl
    (lineStep filename) ([], false)

/-- Outcome of the external generation service for one item, covering the
control-flow paths of `analyze_video` (src/reels.py lines 65–281):
the upload raises; the processing poll exceeds its 5-minute bound
(`TimeoutError`, line 74); the file reaches the `FAILED` state
(`ValueError`, line 79); obtaining the transcript raises; the transcript
is empty (line 103); the analysis `generate_content` call raises
(line 111); or an analysis text is returned.  `deleteOk` records whether
the `genai.delete_file` call on that path itself succeeds. -/
inductive GenOutcome where
  | uploadErr : GenOutcome
  | pollTimeout : GenOutcome
  | pollFailed : GenOutcome
  | transcribeErr : GenOutcome
  | noTranscript (deleteOk : Bool) : GenOutcome
  | analysisErr (transcript : List Char) : GenOutcome
  | ok (transcript text : List Char) (deleteOk : Bool) : GenOutcome
deriving DecidableEq

/-- Did the media upload to the generation service succeed (so that a
remote handle exists)?  True on every `GenOutcome` except an upload
error. -/
def uploadHappened : GenOutcome → Bool
  | GenOutcome.uploadErr => false
  | _ => true

/-- Result of `analyze_video`: the parsed records, the parse-error flag,
and how many times `genai.delete_file` was attempted for the item. -/
structure AVResult where
  results : List VisualSegmentAnalysis
  parseError : Bool
  deletes : Nat
deriving DecidableEq

/-- Embedding of `analyze_video` (src/reels.py lines 58–281).  Every
exception inside the big `try` is caught at line 279 and turned into
`([], True)`.  `delete_file` is called only at lines 105 (empty
transcript) and 275 (after the parse loop); on all exception paths the
call is never reached.  A failing delete on the reached paths is itself
an exception, caught at line 279 after the attempt. -/
def analyze_video (filename : List Char) (o : GenOutcome) : AVResult :=
  match o with
  | GenOutcome.uploadErr => ⟨[], true, 0⟩
  | GenOutcome.pollTimeout => ⟨[], true, 0⟩
  | GenOutcome.pollFailed => ⟨[], true, 0⟩
  | GenOutcome.transcribeErr => ⟨[], true, 0⟩
  | GenOutcome.noTranscript dok =>
    if dok then ⟨[], false, 1⟩ else ⟨[], true, 1⟩
  | GenOutcome.analysisErr _ => ⟨[], true, 0⟩
  | GenOutcome.ok _ text dok =>
    let p := parseAnalysisText filename text
    if dok then ⟨p.1, p.2, 1⟩ else ⟨[], true, 1⟩

/-- Deterministic environment of external collaborators for one run of
`download_and_analyze_reels`: `resolve` is the `yt-dlp --get-filename`
call (`none` models a raised `CalledProcessError`/timeout), `localExists`
the `os.path.exists(video_path)` check, `downloadOk` the download
subprocess, `gen` the generation service for the resolved key, and
`writeFails` whether the durable CSV append raises. -/
structure PipeEnv where
  resolve : Nat → Option (List Char)
  localExists : List Char → Bool
  downloadOk : Nat → Bool
  gen : List Char → GenOutcome
  writeFails : List Char → Bool

/-- Observable state of one run of `download_and_analyze_reels`
(src/reels.py lines 284–392): the durable storage contents, the dedup
set `analyzed_videos` loaded at startup (never extended during the run),
the `failed_links` list, and counters for generation-service calls,
rate-limiter acquisitions and downloads. -/
structure RunState where
  storage : List VisualSegmentAnalysis
  ledger : List (List Char)
  failed : List Nat
  genCalls : Nat
  rlAcquires : Nat
  downloads : Nat
deriving DecidableEq

/-- Embedding of `write_analysis_to_csv` (src/reels_analyzer.py lines
21–44): nothing happens on an empty result list; the append is wrapped
in its own `try`, so a raising write (modelled by `writeFails`) leaves
the storage unchanged and raises nothing to the caller. -/
def write_analysis_to_csv (writeFails : Bool)
    (results storage : List VisualSegmentAnalysis) :
    List VisualSegmentAnalysis :=
  if results.isEmpty then storage
  else if writeFails then storage
  else storage ++ results

/-- Body of the `for link in links` loop of `download_and_analyze_reels`
(src/reels.py lines 317–384): resolve the filename (failure → the link
is recorded as failed); skip if the key is already in `analyzed_videos`
— before the rate limiter, the download and the generation call;
otherwise acquire a rate-limiter slot, download if not cached (failure →
failed), run `analyze_video`, and persist/record per lines 359–374. -/
def processLink (env : PipeEnv) (st : RunState) (link : Nat) : RunState :=
  match env.resolve link with
  | none => { st with failed := st.failed ++ [link] }
  | some key =>
    if key ∈ st.ledger then st
    else
      let st1 := { st with rlAcquires := st.rlAcquires + 1 }
      if env.localExists key = false ∧ env.downloadOk link = false then
        { st1 with failed := st1.failed ++ [link] }
      else
        let st2 :=
          if env.localExists key then st1
          else { st1 with downloads := st1.downloads + 1 }
        let r := analyze_video key (env.gen key)
        let st3 := { st2 with genCalls := st2.genCalls + 1 }
        if r.results.isEmpty = false then
          if r.parseError then { st3 with failed := st3.failed ++ [link] }
          else
            { st3 with storage :=
                write_analysis_to_csv (env.writeFails key) r.results st3.storage }
        else if r.parseError then { st3 with failed := st3.failed ++ [link] }
        else st3

/-- The video_filename column of the storage file, as loaded into
`analyzed_videos` at startup (src/reels.py lines 293–303). -/
def ledgerOf (storage : List VisualSegmentAnalysis) : List (List Char) :=
  storage.map (fun r => r.video_filename)

/-- Embedding of `download_and_analyze_reels` (src/reels.py lines
284–392): load the ledger from the existing storage, then fold the
per-link step over the work list. -/
def download_and_analyze_reels (env : PipeEnv) (links : List Nat)
    (storage0 : List VisualSegmentAnalysis) : RunState :=
  links.foldl (processLink env)
    ⟨storage0, ledgerOf storage0, [], 0, 0, 0⟩

/-- The evict-or-sleep loop of the rate limiter (src/reels.py lines
333–343), `requests_per_minute = 10`, `time_window = 60` seconds.  Time
is exact wall-clock time in integer milliseconds (the window is 60000
ms); while at least 10 timestamps are queued, the head is evicted if
strictly older than the window, otherwise the loop sleeps
`60000 - (now - head)` ms and re-reads the clock, which lands `eps` ms
past the end of the sleep (a sleep never returns early and the re-check
takes `eps > 0` time).  Fuel bounds the loop; 1000 steps is far beyond
what 25 calls can use. -/
def rlStep (eps : ℤ) : Nat → ℤ → List ℤ → ℤ × List ℤ
  | 0, now, q => (now, q)
  | fuel + 1, now, q =>
    if 10 ≤ q.length then
      match q with
      | [] => (now, [])
      | t0 :: rest =>
        if 60000 < now - t0 then rlStep eps fuel now rest
        else rlStep eps fuel (t0 + 60000 + eps) (t0 :: rest)
    else (now, q)

/-- One rate-limiter acquisition (src/reels.py lines 334–345): run the
evict-or-sleep loop, then append the current time to the queue. -/
def rlAcquire (eps now : ℤ) (q : List ℤ) : ℤ × List ℤ :=
  let p := rlStep eps 1000 now q
  (p.1, p.2 ++ [p.1])

/-- Timestamps appended by `n` back-to-back acquisitions starting at
time `now` with queue `q`: no time passes between calls other than the
sleeps inside the limiter. -/
def runRL (eps : ℤ) : Nat → ℤ → List ℤ → List ℤ
  | 0, _, _ => []
  | n + 1, now, q =>
    let p := rlAcquire eps now q
    p.1 :: runRL eps n p.1 p.2

/-- Number of timestamps of `ts` inside the closed 60-second window
`[a, a + 60000]` (milliseconds). -/
def windowCount (ts : List ℤ) (a : ℤ) : Nat :=
  (ts.filter (fun s => decide (a ≤ s ∧ s ≤ a + 60000))).length

/-- Concrete environment exercising a failing durable append: one link
resolving to filename `v`, a cached local file, a generation call that
parses into one record with no parse error, and a CSV append that
raises. -/
def ce8env : PipeEnv where
  resolve := fun _ => some "v".toList
  localExists := fun _ => true
  downloadOk := fun _ => true
  gen := fun _ => GenOutcome.ok "t".toList "a,b,c,d,e,f,g,5,j".toList true
  writeFails := fun _ => true

/-! Step equations for the tokenizer scan. -/

theorem scanLoop_other {c : Char} (rest : List Char) (inQ : Bool)
    (cur : List Char) (parts : List (List Char))
    (h1 : ¬c = '"') (h2 : ¬c = ',') :
    scanLoop (c :: rest) inQ cur parts = scanLoop rest inQ (cur ++ [c]) parts := by
  conv_lhs => rw [scanLoop.eq_def]
  simp [h1, h2]

theorem scanLoop_comma_out (rest : List Char) (cur : List Char)
    (parts : List (List Char)) :
    scanLoop (',' :: rest) false cur parts =
      scanLoop rest false [] (parts ++ [cur]) := by
  conv_lhs => rw [scanLoop.eq_def]
  simp

theorem scanLoop_comma_in (rest : List Char) (cur : List Char)
    (parts : List (List Char)) :
    scanLoop (',' :: rest) true cur parts =
      scanLoop rest true (cur ++ [',']) parts := by
  conv_lhs => rw [scanLoop.eq_def]
  simp

theorem scanLoop_quote_pair (rest : List Char) (inQ : Bool)
    (cur : List Char) (parts : List (List Char)) :
    scanLoop ('"' :: '"' :: rest) inQ cur parts =
      scanLoop rest inQ (cur ++ ['"', '"']) parts := by
  conv_lhs => rw [scanLoop.eq_def]
  simp

theorem scanLoop_quote_single (rest : List Char) (inQ : Bool)
    (cur : List Char) (parts : List (List Char))
    (h : rest.head? ≠ some '"') :
    scanLoop ('"' :: rest) inQ cur parts =
      scanLoop rest (!inQ) (cur ++ ['"']) parts := by
  conv_lhs => rw [scanLoop.eq_def]
  cases rest with
  | nil => simp
  | cons q rest2 =>
    have hq : ¬q = '"' := by
      intro hcontra
      exact h (by simp [hcontra])
    simp [hq]

theorem scanLoop_clean (f : List Char)
    (hf : ∀ c ∈ f, ¬c = ',' ∧ ¬c = '"') :
    ∀ (rest cur : List Char) (parts : List (List Char)),
      scanLoop (f ++ rest) false cur parts = scanLoop rest false (cur ++ f) parts := by
  induction f with
  | nil => intro rest cur parts; simp
  | cons c f ih =>
    intro rest cur parts
    have hc := hf c (by simp)
    rw [List.cons_append,
      scanLoop_other (f ++ rest) false cur parts hc.2 hc.1,
      ih (fun d hd => hf d (by simp [hd])) rest (cur ++ [c]) parts]
    simp

/-- A comma-free, quote-free field list whose last field is non-empty is
recovered verbatim by the raw scan. -/
theorem scanLoop_join (fields : List (List Char)) :
    ∀ parts : List (List Char), fields ≠ [] →
      (∀ f ∈ fields, ∀ c ∈ f, ¬c = ',' ∧ ¬c = '"') →
      fields.getLast? ≠ some [] →
      scanLoop (joinComma fields) false [] parts = parts ++ fields := by
  induction fields with
  | nil => intro parts hne; exact absurd rfl hne
  | cons f fs ih =>
    intro parts _ hclean hlast
    cases fs with
    | nil =>
      have hf : f ≠ [] := by
        intro hcontra
        exact hlast (by simp [hcontra])
      have h1 : scanLoop (f ++ []) false [] parts =
          scanLoop [] false ([] ++ f) parts :=
        scanLoop_clean f (hclean f (by simp)) [] [] parts
      simp only [List.append_nil, List.nil_append] at h1
      rw [joinComma, h1, scanLoop]
      simp [hf]
    | cons g gs =>
      have hjoin : joinComma (f :: g :: gs) = f ++ ',' :: joinComma (g :: gs) := rfl
      rw [hjoin,
        scanLoop_clean f (hclean f (by simp)) (',' :: joinComma (g :: gs)) [] parts]
      simp only [List.nil_append]
      rw [scanLoop_comma_out (joinComma (g :: gs)) f parts,
        ih (parts ++ [f]) (List.cons_ne_nil g gs)
          (fun d hd => hclean d (by simp [hd]))
          (by rw [List.getLast?_cons_cons] at hlast; exact hlast)]
      simp

/-- CLAIM C5 (confirmed).  During tokenization the inside-quoted-span flag
behaves as specified: a quote not followed by another quote toggles the
flag; two consecutive quotes seen while inside a quoted span are passed
through as the literal two-character sequence with the flag left true;
two consecutive quotes seen while outside leave the flag false (the net
effect of toggling it twice) and pass the pair through; and a comma is a
field boundary exactly when the flag is false. -/
theorem tokenizer_flag_behavior (rest cur : List Char)
    (parts : List (List Char)) (inQ : Bool) :
    (rest.head? ≠ some '"' →
      scanLoop ('"' :: rest) inQ cur parts =
        scanLoop rest (!inQ) (cur ++ ['"']) parts) ∧
    scanLoop ('"' :: '"' :: rest) true cur parts =
      scanLoop rest true (cur ++ ['"', '"']) parts ∧
    scanLoop ('"' :: '"' :: rest) false cur parts =
      scanLoop rest false (cur ++ ['"', '"']) parts ∧
    scanLoop (',' :: rest) false cur parts =
      scanLoop rest false [] (parts ++ [cur]) ∧
    scanLoop (',' :: rest) true cur parts =
      scanLoop rest true (cur ++ [',']) parts :=
  ⟨fun h => scanLoop_quote_single rest inQ cur parts h,
    scanLoop_quote_pair rest true cur parts,
    scanLoop_quote_pair rest false cur parts,
    scanLoop_comma_out rest cur parts,
    scanLoop_comma_in rest cur parts⟩

/-- Witness for C5 at a concrete input: a single quote followed by `a`
toggles the flag. -/
theorem tokenizer_flag_behavior_witness :
    scanLoop ['"', 'a'] false [] [] = scanLoop ['a'] (!false) ['"'] [] :=
  (tokenizer_flag_behavior ['a'] [] [] false).1 (by decide)

/-- CLAIM C6 counterexample.  Nine comma-free, quote-free fields whose
last field is the empty string: the tokenizer drops the trailing empty
field (the final `if current_part:` guard of src/reels.py line 201), so
tokenizing the comma-joined record fails instead of returning the nine
fields. -/
theorem tokenize_join_last_empty_fails :
    (["a".toList, "b".toList, "c".toList, "d".toList, "e".toList,
      "f".toList, "g".toList, "h".toList, ([] : List Char)].length = 9 ∧
     (∀ f ∈ ["a".toList, "b".toList, "c".toList, "d".toList, "e".toList,
        "f".toList, "g".toList, "h".toList, ([] : List Char)],
        ∀ c ∈ f, ¬c = ',' ∧ ¬c = '"')) ∧
    fix_csv_line (joinComma
      ["a".toList, "b".toList, "c".toList, "d".toList, "e".toList,
       "f".toList, "g".toList, "h".toList, ([] : List Char)]) = none := by
  constructor
  · constructor
    · decide
    · decide
  · decide

/-- CLAIM C6 (corrected).  For a record of 9 fields containing no comma
and no quote character whose LAST field is non-empty, tokenizing the
comma-joined form yields back exactly the original 9 fields; the claim
fails only in the trailing-empty-field case refuted above. -/
theorem tokenizer_round_trip (fields : List (List Char))
    (hlen : fields.length = 9)
    (hclean : ∀ f ∈ fields, ∀ c ∈ f, ¬c = ',' ∧ ¬c = '"')
    (hlast : fields.getLast? ≠ some []) :
    fix_csv_line (joinComma fields) = some fields := by
  have hne : fields ≠ [] := by
    intro hcontra
    rw [hcontra] at hlen
    simp at hlen
  have htok : tokenizeRaw (joinComma fields) = fields := by
    rw [tokenizeRaw, scanLoop_join fields [] hne hclean hlast]
    simp
  rw [fix_csv_line, fixLineN]
  simp [htok, hlen]

/-- Witness for C6 (corrected) at a concrete record. -/
theorem tokenizer_round_trip_witness :
    fix_csv_line (joinComma
      ["1".toList, "2".toList, "3".toList, "4".toList, "5".toList,
       "6".toList, "7".toList, "8".toList, "9".toList]) =
    some ["1".toList, "2".toList, "3".toList, "4".toList, "5".toList,
      "6".toList, "7".toList, "8".toList, "9".toList] :=
  tokenizer_round_trip
    ["1".toList, "2".toList, "3".toList, "4".toList, "5".toList,
     "6".toList, "7".toList, "8".toList, "9".toList]
    (by decide) (by decide) (by decide)

theorem fixLineN_length (n : Nat) (line : List Char) (fs : List (List Char))
    (h : fixLineN n line = some fs) : fs.length = n := by
  simp only [fixLineN] at h
  split at h
  case isTrue h1 =>
    rw [Option.some_inj] at h
    subst h
    exact h1
  case isFalse h1 =>
    split at h
    case isTrue h2 =>
      rw [Option.some_inj] at h
      subst h
      exact h2
    case isFalse h2 => exact absurd h (by simp)

/-- CLAIM C4 counterexample.  The field written `"He said ""hi""."`
tokenizes and materializes to the RAW text `"He said ""hi""."` — the
record keeps the enclosing straight quotes and the doubled embedded
quotes, which differs from the claimed literal `He said "hi".` —
because `analyze_video` (src/reels.py lines 250–261) stores
`fields[4]` verbatim with no stripping or unescaping. -/
theorem quote_round_trip_fails :
    ((lineStep "v.mp4".toList ([], false)
        "1,00:00:00.000,00:00:05.000,B-roll,\"He said \"\"hi\"\".\",d,p,5,j".toList).1.map
      (fun r => r.spoken_text)) = ["\"He said \"\"hi\"\".\"".toList] ∧
    ("\"He said \"\"hi\"\".\"".toList : List Char) ≠ "He said \"hi\".".toList := by
  constructor
  · decide
  · decide

/-- CLAIM C4 (corrected).  Tokenizing the escaped-quote line and
materializing the record stores the raw tokenized field verbatim: the
record's spoken-text field is `"He said ""hi""."` (enclosing quotes and
doubled quotes preserved), and the line sets no parse error. -/
theorem quote_field_kept_verbatim :
    ((lineStep "v.mp4".toList ([], false)
        "1,00:00:00.000,00:00:05.000,B-roll,\"He said \"\"hi\"\".\",d,p,5,j".toList).1.map
      (fun r => r.spoken_text)) = ["\"He said \"\"hi\"\".\"".toList] ∧
    (lineStep "v.mp4".toList ([], false)
      "1,00:00:00.000,00:00:05.000,B-roll,\"He said \"\"hi\"\".\",d,p,5,j".toList).2
      = false := by
  constructor
  · decide
  · decide

/-- CLAIM C7 counterexample.  A 9-field line whose rating field is `99`
(not an integer in 1..5): `fix_csv_line` reconciles it, and the per-line
step of `analyze_video` produces a record with rating text `99` and
leaves the parse-error flag false — the dataclass constructor performs
no validation — contradicting the claim that such a line yields no
record and marks a parse error. -/
theorem rating_out_of_range_accepted :
    fix_csv_line "1,2,3,4,5,6,7,99,9".toList =
      some ["1".toList, "2".toList, "3".toList, "4".toList, "5".toList,
        "6".toList, "7".toList, "99".toList, "9".toList] ∧
    ¬ digitsToNat "99".toList ≤ 5 ∧
    lineStep "v.mp4".toList ([], false) "1,2,3,4,5,6,7,99,9".toList =
      ([mkVSA "v.mp4".toList
        ["1".toList, "2".toList, "3".toList, "4".toList, "5".toList,
         "6".toList, "7".toList, "99".toList, "9".toList]], false) := by
  refine ⟨by decide, by decide, by decide⟩

/-- CLAIM C7 (corrected).  Materialization validates nothing: whenever
`fix_csv_line` reconciles a non-blank, non-header line into 9 fields,
the per-line step appends the record built from those fields verbatim —
the rating field is stored as raw text with no integer parse or range
check — and the parse-error flag is unchanged. -/
theorem materializer_no_rating_validation (filename line : List Char)
    (fields : List (List Char)) (res : List VisualSegmentAnalysis) (pe : Bool)
    (hfix : fix_csv_line line = some fields)
    (hblank : (pyStrip line).isEmpty = false)
    (hhead : isReelsHeader line = false) :
    (lineStep filename (res, pe) line = (res ++ [mkVSA filename fields], pe) ∧
      (mkVSA filename fields).effectiveness_rating = fields.getD 7 []) ∧
    (∀ (line2 : List Char) (fields2 : List (List Char))
        (res2 : List ScriptAnalysis) (pe2 : Bool),
      fix_script_csv_line line2 = some fields2 →
      (pyStrip line2).isEmpty = false → isScriptHeader line2 = false →
      scriptLineStep (res2, pe2) line2 = (res2 ++ [mkSA fields2], pe2) ∧
        (mkSA fields2).effectiveness_score = fields2.getD 11 []) := by
  have hlen : fields.length = 9 := fixLineN_length 9 line fields hfix
  constructor
  · constructor
    · simp only [lineStep]
      rw [fix_csv_line] at hfix
      simp [hblank, hhead, fix_csv_line, hfix, hlen]
    · rfl
  · intro line2 fields2 res2 pe2 hfix2 hblank2 hhead2
    have hlen2 : fields2.length = 13 := fixLineN_length 13 line2 fields2 hfix2
    constructor
    · simp only [scriptLineStep]
      rw [fix_script_csv_line] at hfix2
      simp [hblank2, hhead2, fix_script_csv_line, hfix2, hlen2]
    · rfl

/-- Witness for C7 (corrected): a concrete non-numeric rating `x` is
stored verbatim with no parse error. -/
theorem materializer_no_rating_validation_witness :
    lineStep "v.mp4".toList ([], false) "a,b,c,d,e,f,g,x,i".toList =
      ([] ++ [mkVSA "v.mp4".toList
        ["a".toList, "b".toList, "c".toList, "d".toList, "e".toList,
         "f".toList, "g".toList, "x".toList, "i".toList]], false) ∧
    (mkVSA "v.mp4".toList
      ["a".toList, "b".toList, "c".toList, "d".toList, "e".toList,
       "f".toList, "g".toList, "x".toList, "i".toList]).effectiveness_rating =
      ["a".toList, "b".toList, "c".toList, "d".toList, "e".toList,
       "f".toList, "g".toList, "x".toList, "i".toList].getD 7 [] ∧
    (scriptLineStep ([], false) "a,b,c,d,e,f,g,h,i,j,k,x,m".toList =
      ([] ++ [mkSA
        ["a".toList, "b".toList, "c".toList, "d".toList, "e".toList,
         "f".toList, "g".toList, "h".toList, "i".toList, "j".toList,
         "k".toList, "x".toList, "m".toList]], false) ∧
      (mkSA
        ["a".toList, "b".toList, "c".toList, "d".toList, "e".toList,
         "f".toList, "g".toList, "h".toList, "i".toList, "j".toList,
         "k".toList, "x".toList, "m".toList]).effectiveness_score =
        ["a".toList, "b".toList, "c".toList, "d".toList, "e".toList,
         "f".toList, "g".toList, "h".toList, "i".toList, "j".toList,
         "k".toList, "x".toList, "m".toList].getD 11 []) :=
  ⟨(materializer_no_rating_validation "v.mp4".toList "a,b,c,d,e,f,g,x,i".toList
      ["a".toList, "b".toList, "c".toList, "d".toList, "e".toList,
       "f".toList, "g".toList, "x".toList, "i".toList] [] false
      (by decide) (by decide) (by decide)).1.1,
   (materializer_no_rating_validation "v.mp4".toList "a,b,c,d,e,f,g,x,i".toList
      ["a".toList, "b".toList, "c".toList, "d".toList, "e".toList,
       "f".toList, "g".toList, "x".toList, "i".toList] [] false
      (by decide) (by decide) (by decide)).1.2,
   (materializer_no_rating_validation "v.mp4".toList "a,b,c,d,e,f,g,x,i".toList
      ["a".toList, "b".toList, "c".toList, "d".toList, "e".toList,
       "f".toList, "g".toList, "x".toList, "i".toList] [] false
      (by decide) (by decide) (by decide)).2
     "a,b,c,d,e,f,g,h,i,j,k,x,m".toList
     ["a".toList, "b".toList, "c".toList, "d".toList, "e".toList,
      "f".toList, "g".toList, "h".toList, "i".toList, "j".toList,
      "k".toList, "x".toList, "m".toList] [] false
     (by decide) (by decide) (by decide)⟩

/-- CLAIM C10 (confirmed).  Header detection is case-insensitive
substring containment: any line whose lowered text contains
`segment_id` is discarded by the 9-field per-line step with the state
(records and parse-error flag) unchanged, and any line whose lowered
text contains `video_filename` or `overall_message` is likewise
discarded by the 13-field per-line step — even when it is a data
line. -/
theorem header_detection_by_containment (filename line line2 : List Char)
    (st : List VisualSegmentAnalysis × Bool) (st2 : List ScriptAnalysis × Bool)
    (h : containsSub "segment_id".toList (lowerList line) = true)
    (h2 : (containsSub "video_filename".toList (lowerList line2) ||
      containsSub "overall_message".toList (lowerList line2)) = true) :
    lineStep filename st line = st ∧ scriptLineStep st2 line2 = st2 := by
  have hh : isReelsHeader line = true := by
    rw [isReelsHeader, h]
    simp
  have hh2 : isScriptHeader line2 = true := by
    rw [isScriptHeader, h2]
  constructor
  · simp only [lineStep]
    by_cases he : (pyStrip line).isEmpty = true
    · rw [if_pos he]
    · rw [if_neg he, if_pos hh]
  · simp only [scriptLineStep]
    by_cases he : (pyStrip line2).isEmpty = true
    · rw [if_pos he]
    · rw [if_neg he, if_pos hh2]

/-- Witness for C10 at concrete data lines that merely mention the
header words. -/
theorem header_detection_by_containment_witness :
    lineStep "v.mp4".toList ([], false)
        "a note about the Segment_ID value,b,c".toList = ([], false) ∧
    scriptLineStep ([], false)
        "the Overall_Message here is kindness".toList = ([], false) :=
  header_detection_by_containment "v.mp4".toList
    "a note about the Segment_ID value,b,c".toList
    "the Overall_Message here is kindness".toList
    ([], false) ([], false) (by decide) (by decide)

/-- CLAIM C3 (confirmed).  With `requests_per_minute = 10` and
`time_window = 60` seconds (src/reels.py lines 313–314), issuing 25
back-to-back acquisitions starting from an empty queue at time 0 —
sleeps landing 1 ms past their nominal end — yields a timestamp
sequence in which no sliding 60-second window (any closed interval
`[a, a + 60000]` ms) contains more than 10 timestamps. -/
theorem rate_limiter_sliding_window_bound (a : ℤ) :
    windowCount (runRL 1 25 0 []) a ≤ 10 := by
  have hts : runRL 1 25 0 [] =
      List.replicate 10 (0 : ℤ) ++
        (List.replicate 10 (60001 : ℤ) ++ List.replicate 5 (120002 : ℤ)) := by
    decide
  rw [windowCount, hts, List.filter_append, List.filter_append,
    List.length_append, List.length_append, List.filter_replicate,
    List.filter_replicate, List.filter_replicate]
  by_cases h0 : a ≤ (0 : ℤ) ∧ (0 : ℤ) ≤ a + 60000
  · by_cases hb : a ≤ (60001 : ℤ) ∧ (60001 : ℤ) ≤ a + 60000
    · exfalso
      omega
    · by_cases hc : a ≤ (120002 : ℤ) ∧ (120002 : ℤ) ≤ a + 60000
      · exfalso
        omega
      · simp [h0, hb, hc]
  · by_cases hb : a ≤ (60001 : ℤ) ∧ (60001 : ℤ) ≤ a + 60000
    · by_cases hc : a ≤ (120002 : ℤ) ∧ (120002 : ℤ) ≤ a + 60000
      · exfalso
        omega
      · simp [h0, hb, hc]
    · by_cases hc : a ≤ (120002 : ℤ) ∧ (120002 : ℤ) ≤ a + 60000
      · simp [h0, hb, hc]
      · simp [h0, hb, hc]

theorem lineStep_pe_mono (fn l : List Char)
    (st : List VisualSegmentAnalysis × Bool) (h : st.2 = true) :
    (lineStep fn st l).2 = true := by
  simp only [lineStep]
  split
  · exact h
  split
  · exact h
  split
  · split
    · simpa using h
    · rfl
  · rfl

theorem foldl_lineStep_pe_true (fn : List Char) (lines : List (List Char)) :
    ∀ st : List VisualSegmentAnalysis × Bool, st.2 = true →
      (lines.foldl (lineStep fn) st).2 = true := by
  induction lines with
  | nil => intro st h; exact h
  | cons l ls ih =>
    intro st h
    exact ih _ (lineStep_pe_mono fn l st h)

theorem lineStep_bad (fn l : List Char) (st : List VisualSegmentAnalysis × Bool)
    (hblank : (pyStrip l).isEmpty = false) (hhead : isReelsHeader l = false)
    (hfix : fix_csv_line l = none)
    (hfall : extract_fields_pattern_matching l = none) :
    lineStep fn st l = (st.1, true) := by
  simp only [lineStep]
  rw [if_neg (by simp [hblank]), if_neg (by simp [hhead]), hfix, hfall]

theorem foldl_lineStep_bad (fn l : List Char) (lines : List (List Char))
    (hmem : l ∈ lines)
    (hblank : (pyStrip l).isEmpty = false) (hhead : isReelsHeader l = false)
    (hfix : fix_csv_line l = none)
    (hfall : extract_fields_pattern_matching l = none) :
    ∀ st : List VisualSegmentAnalysis × Bool,
      (lines.foldl (lineStep fn) st).2 = true := by
  induction lines with
  | nil => cases hmem
  | cons x xs ih =>
    intro st
    rcases List.mem_cons.mp hmem with hx | hx
    · subst hx
      rw [List.foldl_cons, lineStep_bad fn l st hblank hhead hfix hfall]
      exact foldl_lineStep_pe_true fn xs _ rfl
    · rw [List.foldl_cons]
      exact ih hx _

/-- CLAIM C1 (confirmed).  First conjunct: a non-blank, non-header line
of the generated text on which both parsers fail sets the parse-error
flag of `analyze_video`.  Second conjunct: once the flag is set, the
per-item step leaves durable storage untouched, leaves the dedup ledger
untouched, and appends the item's reference to the failed-links report.
Third conjunct: a key is in the ledger loaded from a storage file
exactly when some persisted record carries it, so after any run an
item's key is present iff its records were persisted. -/
theorem parse_error_blocks_persistence :
    (∀ (fn t text : List Char) (dok : Bool) (l : List Char),
      l ∈ splitOnChar '\n' (pyStrip (normalizeQuotes text)) →
      (pyStrip l).isEmpty = false → isReelsHeader l = false →
      fix_csv_line l = none → extract_fields_pattern_matching l = none →
      (analyze_video fn (GenOutcome.ok t text dok)).parseError = true) ∧
    (∀ (env : PipeEnv) (st : RunState) (link : Nat) (key : List Char),
      env.resolve link = some key → key ∉ st.ledger →
      (analyze_video key (env.gen key)).parseError = true →
      (processLink env st link).storage = st.storage ∧
      (processLink env st link).ledger = st.ledger ∧
      (processLink env st link).failed = st.failed ++ [link]) ∧
    (∀ (key : List Char) (s : List VisualSegmentAnalysis),
      key ∈ ledgerOf s ↔ ∃ r ∈ s, r.video_filename = key) := by
  refine ⟨?_, ?_, ?_⟩
  · intro fn t text dok l hmem hblank hhead hfix hfall
    cases dok with
    | false => rfl
    | true =>
      simp only [analyze_video, parseAnalysisText]
      exact foldl_lineStep_bad fn l _ hmem hblank hhead hfix hfall ([], false)
  · intro env st link key hres hnot hpe
    simp only [processLink, hres]
    rw [if_neg hnot]
    by_cases hdl : env.localExists key = false ∧ env.downloadOk link = false
    · rw [if_pos hdl]
      exact ⟨rfl, rfl, rfl⟩
    · rw [if_neg hdl]
      by_cases hre : (analyze_video key (env.gen key)).results.isEmpty = false
      · rw [if_pos hre, if_pos hpe]
        by_cases hloc : env.localExists key = true
        · rw [if_pos hloc]
          exact ⟨rfl, rfl, rfl⟩
        · rw [if_neg hloc]
          exact ⟨rfl, rfl, rfl⟩
      · rw [if_neg hre, if_pos hpe]
        by_cases hloc : env.localExists key = true
        · rw [if_pos hloc]
          exact ⟨rfl, rfl, rfl⟩
        · rw [if_neg hloc]
          exact ⟨rfl, rfl, rfl⟩
  · intro key s
    rw [ledgerOf]
    exact List.mem_map

/-- Witness for C1 at concrete inputs: a generated text whose only line
is `x` (both parsers fail) sets the flag; a parse-errored item (upload
error at generation) leaves storage and ledger unchanged and is
reported failed. -/
theorem parse_error_blocks_persistence_witness :
    (analyze_video "v.mp4".toList
      (GenOutcome.ok "t".toList "x".toList true)).parseError = true ∧
    ((processLink
        { resolve := fun _ => some "k".toList
          localExists := fun _ => true
          downloadOk := fun _ => true
          gen := fun _ => GenOutcome.uploadErr
          writeFails := fun _ => false }
        ⟨[], [], [], 0, 0, 0⟩ 7).storage = [] ∧
      (processLink
        { resolve := fun _ => some "k".toList
          localExists := fun _ => true
          downloadOk := fun _ => true
          gen := fun _ => GenOutcome.uploadErr
          writeFails := fun _ => false }
        ⟨[], [], [], 0, 0, 0⟩ 7).failed = [] ++ [7]) ∧
    ("k".toList ∈ ledgerOf [mkVSA "k".toList []] ↔
      ∃ r ∈ [mkVSA "k".toList []], r.video_filename = "k".toList) := by
  refine ⟨?_, ⟨?_, ?_⟩, ?_⟩
  · exact parse_error_blocks_persistence.1 "v.mp4".toList "t".toList
      "x".toList true "x".toList (by decide) (by decide) (by decide)
      (by decide) (by decide)
  · exact (parse_error_blocks_persistence.2.1
      { resolve := fun _ => some "k".toList
        localExists := fun _ => true
        downloadOk := fun _ => true
        gen := fun _ => GenOutcome.uploadErr
        writeFails := fun _ => false }
      ⟨[], [], [], 0, 0, 0⟩ 7 "k".toList rfl (by decide) (by decide)).1
  · exact (parse_error_blocks_persistence.2.1
      { resolve := fun _ => some "k".toList
        localExists := fun _ => true
        downloadOk := fun _ => true
        gen := fun _ => GenOutcome.uploadErr
        writeFails := fun _ => false }
      ⟨[], [], [], 0, 0, 0⟩ 7 "k".toList rfl (by decide) (by decide)).2.2
  · exact parse_error_blocks_persistence.2.2 "k".toList [mkVSA "k".toList []]

theorem processLink_skip (env : PipeEnv) (st : RunState) (link : Nat)
    (key : List Char) (hres : env.resolve link = some key)
    (hmem : key ∈ st.ledger) : processLink env st link = st := by
  simp only [processLink, hres]
  rw [if_pos hmem]

theorem run_all_skipped (env : PipeEnv) (storage0 : List VisualSegmentAnalysis)
    (links : List Nat)
    (h : ∀ l ∈ links, ∃ k ∈ ledgerOf storage0, env.resolve l = some k) :
    download_and_analyze_reels env links storage0 =
      ⟨storage0, ledgerOf storage0, [], 0, 0, 0⟩ := by
  rw [download_and_analyze_reels]
  induction links with
  | nil => rfl
  | cons l ls ih =>
    obtain ⟨k, hk, hres⟩ := h l (by simp)
    rw [List.foldl_cons, processLink_skip env _ l k hres hk]
    exact ih (fun x hx => h x (List.mem_cons_of_mem l hx))

/-- CLAIM C2 (confirmed).  When every link of the work list resolves to
a key already present in the storage file's video_filename column — the
state left by a run that fully persisted every item — the run appends
zero records, performs zero generation-service calls, zero rate-limiter
acquisitions and zero downloads, and reports no failures: every item is
skipped before the rate-limiter, download and generation steps. -/
theorem idempotent_rerun (env : PipeEnv) (links : List Nat)
    (storage0 : List VisualSegmentAnalysis)
    (h : ∀ l ∈ links, ∃ k ∈ ledgerOf storage0, env.resolve l = some k) :
    (download_and_analyze_reels env links storage0).storage = storage0 ∧
    (download_and_analyze_reels env links storage0).genCalls = 0 ∧
    (download_and_analyze_reels env links storage0).rlAcquires = 0 ∧
    (download_and_analyze_reels env links storage0).downloads = 0 ∧
    (download_and_analyze_reels env links storage0).failed = [] := by
  rw [run_all_skipped env storage0 links h]
  exact ⟨rfl, rfl, rfl, rfl, rfl⟩

/-- Witness for C2: a second run over one link whose resolved filename
is already a stored record's video_filename changes nothing and calls
nothing. -/
theorem idempotent_rerun_witness :
    (download_and_analyze_reels
      { resolve := fun _ => some "v".toList
        localExists := fun _ => true
        downloadOk := fun _ => true
        gen := fun _ => GenOutcome.uploadErr
        writeFails := fun _ => false }
      [3] [mkVSA "v".toList []]).storage = [mkVSA "v".toList []] ∧
    (download_and_analyze_reels
      { resolve := fun _ => some "v".toList
        localExists := fun _ => true
        downloadOk := fun _ => true
        gen := fun _ => GenOutcome.uploadErr
        writeFails := fun _ => false }
      [3] [mkVSA "v".toList []]).genCalls = 0 ∧
    (download_and_analyze_reels
      { resolve := fun _ => some "v".toList
        localExists := fun _ => true
        downloadOk := fun _ => true
        gen := fun _ => GenOutcome.uploadErr
        writeFails := fun _ => false }
      [3] [mkVSA "v".toList []]).rlAcquires = 0 ∧
    (download_and_analyze_reels
      { resolve := fun _ => some "v".toList
        localExists := fun _ => true
        downloadOk := fun _ => true
        gen := fun _ => GenOutcome.uploadErr
        writeFails := fun _ => false }
      [3] [mkVSA "v".toList []]).downloads = 0 ∧
    (download_and_analyze_reels
      { resolve := fun _ => some "v".toList
        localExists := fun _ => true
        downloadOk := fun _ => true
        gen := fun _ => GenOutcome.uploadErr
        writeFails := fun _ => false }
      [3] [mkVSA "v".toList []]).failed = [] :=
  idempotent_rerun
    { resolve := fun _ => some "v".toList
      localExists := fun _ => true
      downloadOk := fun _ => true
      gen := fun _ => GenOutcome.uploadErr
      writeFails := fun _ => false }
    [3] [mkVSA "v".toList []]
    (by intro l hl; exact ⟨"v".toList, by decide, rfl⟩)

/-- CLAIM C8 counterexample.  With a generation call that yields one
well-parsed record and a durable append that raises, the run leaves
storage unchanged but the failed-links report is EMPTY: the exception is
caught inside `write_analysis_to_csv` (src/reels_analyzer.py lines
43–44) and never reaches the item boundary, so the link is not recorded
as failed, contradicting the claim. -/
theorem storage_error_not_reported :
    (analyze_video "v".toList (ce8env.gen "v".toList)).results ≠ [] ∧
    (analyze_video "v".toList (ce8env.gen "v".toList)).parseError = false ∧
    (download_and_analyze_reels ce8env [0] []).storage = [] ∧
    (download_and_analyze_reels ce8env [0] []).failed = [] ∧
    (download_and_analyze_reels ce8env [0] []).genCalls = 1 := by
  refine ⟨by decide, by decide, by decide, by decide, by decide⟩

/-- CLAIM C8 (corrected).  A failing durable append is swallowed inside
the writer: the item's records are lost (storage unchanged), the link is
NOT added to the failed-links report, the ledger is unchanged, the
generation call still happened, and the run continues with the remaining
links (processing a work list is the fold of the per-link step, so later
links are processed exactly as if the failed write had succeeded). -/
theorem storage_error_swallowed (env : PipeEnv) (st : RunState) (link : Nat)
    (key : List Char)
    (hres : env.resolve link = some key) (hnot : key ∉ st.ledger)
    (hloc : env.localExists key = true)
    (hre : (analyze_video key (env.gen key)).results.isEmpty = false)
    (hpe : (analyze_video key (env.gen key)).parseError = false)
    (hw : env.writeFails key = true) :
    (processLink env st link).storage = st.storage ∧
    (processLink env st link).failed = st.failed ∧
    (processLink env st link).ledger = st.ledger ∧
    (processLink env st link).genCalls = st.genCalls + 1 ∧
    (∀ (links1 links2 : List Nat) (s0 : List VisualSegmentAnalysis),
      download_and_analyze_reels env (links1 ++ links2) s0 =
        links2.foldl (processLink env) (download_and_analyze_reels env links1 s0)) := by
  have hbody : processLink env st link =
      { st with
        rlAcquires := st.rlAcquires + 1
        genCalls := st.genCalls + 1
        storage := write_analysis_to_csv (env.writeFails key)
          (analyze_video key (env.gen key)).results st.storage } := by
    simp only [processLink, hres]
    rw [if_neg hnot, if_neg (by simp [hloc]), if_pos hloc, if_pos hre,
      if_neg (by simp [hpe])]
  have hwrite : write_analysis_to_csv (env.writeFails key)
      (analyze_video key (env.gen key)).results st.storage = st.storage := by
    rw [hw, write_analysis_to_csv]
    split
    · rfl
    · rw [if_pos rfl]
  refine ⟨?_, ?_, ?_, ?_, ?_⟩
  · rw [hbody]
    simpa using hwrite
  · rw [hbody]
  · rw [hbody]
  · rw [hbody]
  · intro links1 links2 s0
    rw [download_and_analyze_reels, download_and_analyze_reels,
      List.foldl_append]

/-- Witness for C8 (corrected) at the concrete failing-append
environment. -/
theorem storage_error_swallowed_witness :
    (processLink ce8env ⟨[], [], [], 0, 0, 0⟩ 0).storage = [] ∧
    (processLink ce8env ⟨[], [], [], 0, 0, 0⟩ 0).failed = [] ∧
    (processLink ce8env ⟨[], [], [], 0, 0, 0⟩ 0).ledger = [] ∧
    (processLink ce8env ⟨[], [], [], 0, 0, 0⟩ 0).genCalls = 0 + 1 ∧
    download_and_analyze_reels ce8env ([0] ++ [1]) [] =
      [1].foldl (processLink ce8env) (download_and_analyze_reels ce8env [0] []) := by
  have h := storage_error_swallowed ce8env ⟨[], [], [], 0, 0, 0⟩ 0 "v".toList
    rfl (by decide) rfl (by decide) (by decide) rfl
  exact ⟨h.1, h.2.1, h.2.2.1, h.2.2.2.1, h.2.2.2.2 [0] [1] []⟩

/-- CLAIM C9 counterexample.  When the analysis `generate_content` call
raises after a successful upload, the handle was uploaded but
`delete_file` is attempted zero times — the exception jumps to the
handler at src/reels.py line 279, past the delete at line 275 — so
delete is NOT attempted on every path. -/
theorem delete_skipped_on_generation_error :
    uploadHappened (GenOutcome.analysisErr "t".toList) = true ∧
    (analyze_video "v".toList (GenOutcome.analysisErr "t".toList)).deletes = 0 := by
  exact ⟨rfl, rfl⟩

/-- CLAIM C9 (corrected).  `delete_file` is attempted exactly once on
the empty-transcript path and on the path where the analysis response
is obtained (whether or not lines parse), and zero times on the
upload-error, poll-timeout, processing-failed, transcription-error and
analysis-call-error paths: those paths leak the uploaded handle. -/
theorem delete_attempts_by_path (fn : List Char) (o : GenOutcome) :
    (analyze_video fn o).deletes =
      (match o with
        | GenOutcome.noTranscript _ => 1
        | GenOutcome.ok _ _ _ => 1
        | _ => 0) := by
  cases o with
  | uploadErr => rfl
  | pollTimeout => rfl
  | pollFailed => rfl
  | transcribeErr => rfl
  | noTranscript dok => cases dok <;> rfl
  | analysisErr t => rfl
  | ok t text dok => cases dok <;> rfl

end CreatorVault
